import Mathlib

/-!
Verification of the keyword-dispatch / completion-call / stock-report
applications in this repository (four Streamlit variants:
`project2/app.py`, `Project3/app.py`, `Project4/app.py`,
`Projects/Onboarding_agent/app.py`).

Python strings are modelled as Lean `String` values, with the Python
string operations (`in`, `split`, `strip`, `lower`, `upper`, `replace`)
translated to structurally recursive functions over the underlying
character list, so that every definition evaluates inside the kernel.
Prices fetched from the market-data API are modelled as exact rationals
(`ℚ`); pandas column reductions (`max`, `min`, `mean`, `iloc`, `tail`)
become the corresponding list reductions.  The network completion call
and the market-data call are modelled as oracle function parameters: the
code under verification is everything around them.
-/

/-! ## Python string primitives over character lists -/

/-- Python's substring test `needle in hay` on strings, over the
character lists.  An empty needle is contained in every string. -/
def pyContains (hay needle : List Char) : Bool :=
  match hay with
  | [] => needle.isEmpty
  | _ :: rest => needle.isPrefixOf hay || pyContains rest needle

/-- Python's `str.lower()` over the character list (the inputs in this
repository are ASCII, where `Char.toLower` agrees with Python). -/
def pyLowerChars (l : List Char) : List Char :=
  l.map Char.toLower

/-- Python's `str.upper()` over the character list. -/
def pyUpperChars (l : List Char) : List Char :=
  l.map Char.toUpper

/-- Python's `str.strip()` over the character list: drop whitespace from
the front, then from the back. -/
def pyStripChars (l : List Char) : List Char :=
  ((l.dropWhile Char.isWhitespace).reverse.dropWhile Char.isWhitespace).reverse

/-- Python's no-argument `str.split()`: split on whitespace runs and
drop the empty fragments. -/
def pyWhitespaceSplit (l : List Char) : List (List Char) :=
  (List.splitOnP Char.isWhitespace l).filter (fun w => !w.isEmpty)

/-- Helper for `pySplitOnStr`: scan left to right; whenever the (non-empty)
separator is a prefix of the remainder, cut there and continue after the
separator.  `fuel` only makes the recursion structural; at least one
character is consumed per step, so starting with `fuel = l.length` the
fuel never runs out before `l` does. -/
def pySplitOnStrAux (sep : List Char) : Nat → List Char → List Char → List (List Char)
  | 0, l, acc => [acc.reverse ++ l]
  | _ + 1, [], acc => [acc.reverse]
  | fuel + 1, c :: rest, acc =>
    if sep.isPrefixOf (c :: rest) then
      acc.reverse :: pySplitOnStrAux sep fuel (rest.drop (sep.length - 1)) []
    else
      pySplitOnStrAux sep fuel rest (c :: acc)

/-- Python's `str.split(sep)` with a non-empty separator string:
non-overlapping occurrences are removed left to right and the (possibly
empty) pieces between them are returned.  Python raises on an empty
separator; that case is mapped to the whole input. -/
def pySplitOnStr (sep l : List Char) : List (List Char) :=
  if sep.isEmpty then [l] else pySplitOnStrAux sep l.length l []

/-- Helper for `pyRemoveAll`, fuelled the same way as `pySplitOnStrAux`. -/
def pyRemoveAllAux (pat : List Char) : Nat → List Char → List Char
  | 0, l => l
  | _ + 1, [] => []
  | fuel + 1, c :: rest =>
    if pat.isPrefixOf (c :: rest) then
      pyRemoveAllAux pat fuel (rest.drop (pat.length - 1))
    else
      c :: pyRemoveAllAux pat fuel rest

/-- Python's `str.replace(pat, "")` with a non-empty pattern: delete the
non-overlapping occurrences of `pat`, left to right. -/
def pyRemoveAll (pat l : List Char) : List Char :=
  if pat.isEmpty then l else pyRemoveAllAux pat l.length l

/-! ## Rational list reductions (the pandas column reductions) -/

/-- Maximum of a list of rationals (`Series.max()`); `0` on the empty
list, which the callers below never pass. -/
def listMax : List ℚ → ℚ
  | [] => 0
  | [x] => x
  | x :: y :: t => max x (listMax (y :: t))

/-- Minimum of a list of rationals (`Series.min()`); `0` on the empty
list, which the callers below never pass. -/
def listMin : List ℚ → ℚ
  | [] => 0
  | [x] => x
  | x :: y :: t => min x (listMin (y :: t))

/-- Mean of a list of rationals (`Series.mean()`); division by the
length, hence `0` on the empty list. -/
def listMean (l : List ℚ) : ℚ :=
  l.sum / l.length

theorem mem_le_listMax {l : List ℚ} {y : ℚ} (hy : y ∈ l) : y ≤ listMax l := by
  induction l with
  | nil => cases hy
  | cons x t ih =>
    cases t with
    | nil =>
      rcases List.mem_singleton.mp hy with rfl
      simp [listMax]
    | cons z zs =>
      rcases List.mem_cons.mp hy with rfl | hmem
      · simp [listMax]
      · exact le_trans (ih hmem) (by simp [listMax])

theorem listMin_le_mem {l : List ℚ} {y : ℚ} (hy : y ∈ l) : listMin l ≤ y := by
  induction l with
  | nil => cases hy
  | cons x t ih =>
    cases t with
    | nil =>
      rcases List.mem_singleton.mp hy with rfl
      simp [listMin]
    | cons z zs =>
      rcases List.mem_cons.mp hy with rfl | hmem
      · simp [listMin]
      · exact le_trans (by simp [listMin]) (ih hmem)

/-! ## Role dispatcher (`project2/app.py`, `main`, lines 842-872)

The chat-input handler lowers the user text and tests four hardcoded
keyword lists by substring containment, in source order; the first list
with a hit picks the persona, and the trailing `else` falls back to the
blog-writer persona. -/

def researcher_keywords : List String := ["research", "data", "facts"]

def writer_keywords : List String := ["write", "content", "blog", "article"]

def seo_keywords : List String := ["seo", "keyword", "optimize", "search"]

def editor_keywords : List String := ["edit", "grammar", "improve", "feedback"]

/-- Python's `any(word in user_input.lower() for word in kws)`. -/
def keyword_hit (user_input : String) (kws : List String) : Bool :=
  kws.any (fun word => pyContains (pyLowerChars user_input.data) word.data)

/-- The `if/elif/else` chain of `project2/app.py` lines 842-872 that
picks which system prompt answers a free-text chat message.  The string
returned is the `agent_type` label stored with the response. -/
def route_user_input (user_input : String) : String :=
  if keyword_hit user_input researcher_keywords then "researcher"
  else if keyword_hit user_input writer_keywords then "writer"
  else if keyword_hit user_input seo_keywords then "seo"
  else if keyword_hit user_input editor_keywords then "editor"
  else "writer"

/-- The spec's formulation of the dispatcher: an ordered list of
(keyword list, persona) rules, scanned for the first rule with any
match, with a default persona when none matches. -/
def persona_rules : List (List String × String) :=
  [(researcher_keywords, "researcher"), (writer_keywords, "writer"),
   (seo_keywords, "seo"), (editor_keywords, "editor")]

/-- The default persona of the dispatcher: the trailing `else` branch
uses the blog-writer prompt. -/
def default_persona : String := "writer"

/-- First-matching-rule dispatcher as the spec words it, to be compared
with `route_user_input`. -/
def dispatch_spec (user_input : String) : String :=
  match persona_rules.find? (fun rule => keyword_hit user_input rule.1) with
  | some rule => rule.2
  | none => default_persona

/-- C3: the keyword dispatcher is a total function that lowers the
input, scans the predefined keyword lists in fixed source order by
substring containment, returns the persona of the first list with a
match, always yields exactly one label from the persona set, and falls
back to the default persona on no match — in particular on empty
input. -/
theorem route_user_input_first_match_spec (input : String) :
    route_user_input input = dispatch_spec input ∧
    route_user_input input ∈ ["researcher", "writer", "seo", "editor"] ∧
    route_user_input "" = default_persona := by
  refine ⟨?_, ?_, by decide⟩ <;>
  · cases h1 : keyword_hit input researcher_keywords <;>
    cases h2 : keyword_hit input writer_keywords <;>
    cases h3 : keyword_hit input seo_keywords <;>
    cases h4 : keyword_hit input editor_keywords <;>
    simp [route_user_input, dispatch_spec, persona_rules, default_persona,
      List.find?, h1, h2, h3, h4]

/-! ## Completion client (`GroqClient.get_completion`, identical shape in
`project2/app.py` lines 109-135, `Project4/app.py` lines 103-129 and the
onboarding variant)

The network layer is an oracle `api` mapping the assembled message list
to either the generated text or a raised exception's message; the whole
body of `get_completion` sits inside one `try/except`. -/

/-- One `{role, content}` entry of the request body. -/
structure ChatMessage where
  role : String
  content : String
deriving DecidableEq, Repr

/-- Outcome of the one blocking completion request: the generated text,
or the message of the exception the client raised. -/
inductive ApiOutcome where
  | ok (text : String)
  | exn (msg : String)
deriving DecidableEq, Repr

/-- The fixed error marker prefixed to every converted exception. -/
def error_marker : String := "I apologize, but I encountered an error: "

/-- The fixed tail of the converted exception string. -/
def error_suffix : String := ". Please try again."

/-- Message-list assembly of `get_completion`: the optional system
prompt first, then the user content. -/
def build_messages (message : String) (system_message : Option String) :
    List ChatMessage :=
  (match system_message with
   | some s => [⟨"system", s⟩]
   | none => []) ++ [⟨"user", message⟩]

/-- `GroqClient.get_completion`: assemble the messages, issue exactly one
request to the oracle, and either return its text or convert the caught
exception into the marker-prefixed user-facing string.  The second
component counts the API requests issued. -/
def get_completion (api : List ChatMessage → ApiOutcome)
    (message : String) (system_message : Option String) : String × Nat :=
  match api (build_messages message system_message) with
  | .ok t => (t, 1)
  | .exn e => (error_marker ++ e ++ error_suffix, 1)

/-- C4: a single `get_completion` call issues exactly one API request
(hence at most one — it never retries) and always returns a string: the
oracle's text on success, and on any exception the user-facing string
built by prefixing the fixed error marker; the function itself has no
failure path. -/
theorem get_completion_one_call_total
    (api : List ChatMessage → ApiOutcome)
    (message : String) (system_message : Option String) :
    (get_completion api message system_message).2 = 1 ∧
    (∀ t, api (build_messages message system_message) = .ok t →
      (get_completion api message system_message).1 = t) ∧
    (∀ e, api (build_messages message system_message) = .exn e →
      (get_completion api message system_message).1 =
        error_marker ++ e ++ error_suffix) := by
  cases h : api (build_messages message system_message) <;>
    simp [get_completion, h]

/-- A completion oracle that always raises, to witness the exception
branch of `get_completion_one_call_total`. -/
def always_exn_api : List ChatMessage → ApiOutcome := fun _ => .exn "boom"

theorem get_completion_one_call_total_witness :
    (get_completion always_exn_api "hello" none).2 = 1 ∧
    (get_completion always_exn_api "hello" none).1 =
      error_marker ++ "boom" ++ error_suffix :=
  ⟨(get_completion_one_call_total always_exn_api "hello" none).1,
   (get_completion_one_call_total always_exn_api "hello" none).2.2 "boom" rfl⟩

/-! ## Session message history (`project2/app.py`, `main`)

Every statement in the source that changes `st.session_state.messages`
is either `messages.append({...})` (the user-input and agent-response
sites, lines 833-880 and the sidebar actions) or the reassignment
`messages = []` behind the Clear Chat button (lines 781-783); no site
assigns to an index, removes an element, or reorders. -/

/-- One chat-history record as the source builds it (the optional
`report_data` payload of the stock variant is not inspected by any
history operation and is omitted). -/
structure SessionMessage where
  role : String
  content : String
  timestamp : String
  agent_type : String
deriving DecidableEq, Repr

/-- The complete set of mutations the source applies to the session's
message list. -/
inductive HistoryOp where
  | append (m : SessionMessage)
  | clear
deriving DecidableEq, Repr

/-- Effect of one history mutation on the message list. -/
def apply_history_op (history : List SessionMessage) (op : HistoryOp) :
    List SessionMessage :=
  match op with
  | .append m => history ++ [m]
  | .clear => []

/-- C8: the chat history is append-only — every operation either appends
one record at the end or clears the whole list; in particular each
operation leaves the existing messages as a prefix (insertion order is
never disturbed) unless it empties the history entirely. -/
theorem history_append_only (history : List SessionMessage) (op : HistoryOp) :
    ((∃ m, apply_history_op history op = history ++ [m]) ∨
      apply_history_op history op = []) ∧
    (apply_history_op history op = [] ∨
      history <+: apply_history_op history op) := by
  cases op with
  | append m =>
    exact ⟨Or.inl ⟨m, rfl⟩, Or.inr ⟨[m], rfl⟩⟩
  | clear =>
    exact ⟨Or.inr rfl, Or.inl rfl⟩

/-! ## Editor output parsing (`BlogWritingAIAgent.edit_content`,
`project2/app.py` lines 402-442)

The text returned by the editing completion call is split at the two
section markers; if either marker is missing the whole text is returned
unsplit with a canned feedback string. -/

/-- The first section marker of the editing response. -/
def edited_marker : String := "EDITED CONTENT"

/-- The second section marker of the editing response. -/
def feedback_marker : String := "EDITING FEEDBACK"

/-- The canned feedback returned when a marker is missing. -/
def editor_fallback_feedback : String :=
  "Comprehensive editing completed. Review the changes above."

/-- The marker-splitting tail of `edit_content` (the pure part after the
completion call returns `editing_result`): when both markers occur,
`editing_result.split("EDITING FEEDBACK")` is taken, the edited content
is part 0 with every `"EDITED CONTENT"` occurrence removed and then
stripped, and the feedback is the marker re-prefixed to part 1;
otherwise the whole text is the edited content and the feedback is the
canned string. -/
def edit_content_parse (editing_result : String) : String × String :=
  if pyContains editing_result.data edited_marker.data &&
      pyContains editing_result.data feedback_marker.data then
    let parts := pySplitOnStr feedback_marker.data editing_result.data
    (⟨pyStripChars (pyRemoveAll edited_marker.data (parts.headD []))⟩,
     feedback_marker ++ (⟨(parts[1]?).getD []⟩ : String))
  else
    (editing_result, editor_fallback_feedback)

/-- C6: `edit_content` never fails on malformed editing text: when both
section markers are present the response is split into the edited
content (part before the feedback marker, with the content marker
removed and stripped) and a feedback string carrying the feedback
marker; when either marker is absent the whole text comes back unsplit
together with the fixed fallback feedback string. -/
theorem edit_content_parse_total_fallback (s : String) :
    ((pyContains s.data edited_marker.data &&
        pyContains s.data feedback_marker.data) = false →
      edit_content_parse s = (s, editor_fallback_feedback)) ∧
    ((pyContains s.data edited_marker.data &&
        pyContains s.data feedback_marker.data) = true →
      (edit_content_parse s).1 =
        (⟨pyStripChars (pyRemoveAll edited_marker.data
          ((pySplitOnStr feedback_marker.data s.data).headD []))⟩ : String) ∧
      (edit_content_parse s).2 =
        feedback_marker ++
          (⟨((pySplitOnStr feedback_marker.data s.data)[1]?).getD []⟩ : String)) := by
  constructor
  · intro h
    simp [edit_content_parse, h]
  · intro h
    simp [edit_content_parse, h]

theorem edit_content_parse_total_fallback_witness :
    edit_content_parse "hello" = ("hello", editor_fallback_feedback) ∧
    (edit_content_parse "EDITED CONTENT good text EDITING FEEDBACK nice").1 =
      "good text" ∧
    (edit_content_parse "EDITED CONTENT good text EDITING FEEDBACK nice").2 =
      "EDITING FEEDBACK nice" := by
  refine ⟨(edit_content_parse_total_fallback "hello").1 (by decide), ?_, ?_⟩
  · exact Eq.trans
      (((edit_content_parse_total_fallback
        "EDITED CONTENT good text EDITING FEEDBACK nice").2 (by decide)).1)
      (by decide)
  · exact Eq.trans
      (((edit_content_parse_total_fallback
        "EDITED CONTENT good text EDITING FEEDBACK nice").2 (by decide)).2)
      (by decide)

/-! ## Stock price data (`Project4/app.py`)

One row of the fetched OHLCV frame, with exact rational prices. -/

structure PriceRow where
  open_price : ℚ
  high : ℚ
  low : ℚ
  close : ℚ
  volume : ℚ
deriving DecidableEq, Repr

/-- A row whose four price columns all equal one close value, for
exercising the close-series examples of the spec. -/
def closeRow (x : ℚ) : PriceRow :=
  ⟨x, x, x, x, 0⟩

/-- The close series `[100, 105, 98, 110]` of the spec's worked example,
as OHLCV rows. -/
def exampleRows : List PriceRow :=
  [closeRow 100, closeRow 105, closeRow 98, closeRow 110]

/-! ## Technical metrics (`StockReportAISystem.generate_technical_analysis`,
`Project4/app.py` lines 417-455)

The metric block computed from `hist['Close']` before the prompt is
assembled: `iloc[-1]`, `iloc[-2]` (guarded by `len(hist) > 1`), their
difference and its percentage, and the two tail means guarded by the
window lengths.  `iloc[-1]` on an empty frame raises in pandas, modelled
as `none`. -/

structure TechnicalMetrics where
  current_price : ℚ
  prev_price : ℚ
  price_change : ℚ
  price_change_pct : ℚ
  sma_20 : ℚ
  sma_50 : ℚ
deriving DecidableEq, Repr

def generate_technical_analysis (hist : List PriceRow) : Option TechnicalMetrics :=
  let closes := hist.map PriceRow.close
  if closes.isEmpty then none
  else
    let current_price := (closes[closes.length - 1]?).getD 0
    let prev_price :=
      if 1 < closes.length then (closes[closes.length - 2]?).getD 0 else current_price
    let price_change := current_price - prev_price
    let price_change_pct := price_change / prev_price * 100
    let sma_20 :=
      if 20 ≤ closes.length then listMean (closes.drop (closes.length - 20))
      else current_price
    let sma_50 :=
      if 50 ≤ closes.length then listMean (closes.drop (closes.length - 50))
      else current_price
    some ⟨current_price, prev_price, price_change, price_change_pct, sma_20, sma_50⟩

/-- Latest close of the series, as the spec names it. -/
def latestClose (hist : List PriceRow) : ℚ :=
  ((hist.map PriceRow.close).getLast?).getD 0

/-- Second-to-last close of the series (defined for series of length at
least two, where the code's `len(hist) > 1` guard takes it). -/
def previousClose (hist : List PriceRow) : ℚ :=
  ((hist.map PriceRow.close)[hist.length - 2]?).getD 0

/-- C1 counterexample: on the spec's own example series
`[100, 105, 98, 110]` the percent change computed by
`generate_technical_analysis` is `(110 - 98) / 98 * 100 = 600/49
≈ 12.24`, not the `(110 - 100) / 100 * 100 = 10` the claim asserts. -/
theorem technical_pct_change_example_not_ten :
    (generate_technical_analysis exampleRows).map TechnicalMetrics.price_change_pct =
      some (600 / 49) ∧
    (600 / 49 : ℚ) ≠ ((110 : ℚ) - 100) / 100 * 100 := by
  constructor
  · simp [generate_technical_analysis, exampleRows, closeRow]
    norm_num
  · norm_num

/-- C1 amended: for every fetched series with at least two rows, the
percent change computed by `generate_technical_analysis` is the daily
change `(latest close - previous close) / previous close * 100` — the
change against the second-to-last close, not against the first close. -/
theorem technical_pct_change_is_daily (hist : List PriceRow)
    (h : 2 ≤ hist.length) :
    (generate_technical_analysis hist).map TechnicalMetrics.price_change_pct =
      some ((latestClose hist - previousClose hist) / previousClose hist * 100) := by
  have hne : (hist.map PriceRow.close).isEmpty = false := by
    cases hist with
    | nil => simp at h
    | cons a t => simp
  have hlen : 1 < hist.length := by omega
  have hlast : (Option.map PriceRow.close hist[hist.length - 1]?).getD 0 =
      latestClose hist := by
    rw [latestClose, List.getLast?_eq_getElem?, List.getElem?_map, List.length_map]
  have hprev : (Option.map PriceRow.close hist[hist.length - 2]?).getD 0 =
      previousClose hist := by
    rw [previousClose, List.getElem?_map]
  simp [generate_technical_analysis, hne, hlen, hlast, hprev]

theorem technical_pct_change_is_daily_witness :
    (generate_technical_analysis exampleRows).map TechnicalMetrics.price_change_pct =
      some ((latestClose exampleRows - previousClose exampleRows) /
        previousClose exampleRows * 100) :=
  technical_pct_change_is_daily exampleRows (by decide)

/-- C2 counterexample: the two-row series with closes `[100, 110]` is
shorter than the 20-period window, yet the computed 20-period rolling
mean is the latest close `110`, not the series mean `105`. -/
theorem short_series_sma_not_series_mean :
    (generate_technical_analysis [closeRow 100, closeRow 110]).map
      TechnicalMetrics.sma_20 = some 110 ∧
    listMean (([closeRow 100, closeRow 110]).map PriceRow.close) = 105 ∧
    (110 : ℚ) ≠ 105 := by
  refine ⟨?_, ?_, by norm_num⟩
  · simp [generate_technical_analysis, closeRow]
  · simp [listMean, closeRow]
    norm_num

/-- C2 amended: for a non-empty series shorter than the rolling window
(20 or 50 periods), the computed rolling mean silently degrades to the
latest close (`current_price`), not to the mean of the whole series. -/
theorem short_series_sma_is_latest_close (hist : List PriceRow)
    (hne : hist ≠ []) :
    (hist.length < 20 →
      (generate_technical_analysis hist).map TechnicalMetrics.sma_20 =
        some (latestClose hist)) ∧
    (hist.length < 50 →
      (generate_technical_analysis hist).map TechnicalMetrics.sma_50 =
        some (latestClose hist)) := by
  have hne' : (hist.map PriceRow.close).isEmpty = false := by
    cases hist with
    | nil => exact absurd rfl hne
    | cons a t => simp
  have hlast : (Option.map PriceRow.close hist[hist.length - 1]?).getD 0 =
      latestClose hist := by
    rw [latestClose, List.getLast?_eq_getElem?, List.getElem?_map, List.length_map]
  constructor
  · intro h20
    have h : ¬ 20 ≤ hist.length := by omega
    simp [generate_technical_analysis, hne', h, hlast]
  · intro h50
    have h : ¬ 50 ≤ hist.length := by omega
    simp [generate_technical_analysis, hne', h, hlast]

theorem short_series_sma_is_latest_close_witness :
    (generate_technical_analysis [closeRow 100, closeRow 110]).map
      TechnicalMetrics.sma_20 = some (latestClose [closeRow 100, closeRow 110]) ∧
    (generate_technical_analysis [closeRow 100, closeRow 110]).map
      TechnicalMetrics.sma_50 = some (latestClose [closeRow 100, closeRow 110]) :=
  ⟨(short_series_sma_is_latest_close [closeRow 100, closeRow 110]
      (by decide)).1 (by decide),
   (short_series_sma_is_latest_close [closeRow 100, closeRow 110]
      (by decide)).2 (by decide)⟩

/-! ## Displayed period metrics (`Project4/app.py`, `main`, lines 772-788)

The Analysis Metrics panel computes the period high as the maximum of
the `High` column and the period low as the minimum of the `Low`
column. -/

def period_high (rows : List PriceRow) : ℚ :=
  listMax (rows.map PriceRow.high)

def period_low (rows : List PriceRow) : ℚ :=
  listMin (rows.map PriceRow.low)

/-- C7: for every non-empty price series whose rows satisfy
`Low ≤ Close ≤ High`, the displayed period high bounds every close from
above and the displayed period low bounds every close from below. -/
theorem period_high_low_bound_closes (rows : List PriceRow)
    (hne : rows ≠ [])
    (hrows : ∀ r ∈ rows, r.low ≤ r.close ∧ r.close ≤ r.high) :
    ∀ r ∈ rows, period_low rows ≤ r.close ∧ r.close ≤ period_high rows := by
  intro r hr
  constructor
  · exact le_trans (listMin_le_mem (List.mem_map_of_mem PriceRow.low hr))
      (hrows r hr).1
  · exact le_trans (hrows r hr).2
      (mem_le_listMax (List.mem_map_of_mem PriceRow.high hr))

theorem period_high_low_bound_closes_witness :
    period_low exampleRows ≤ (closeRow 100).close ∧
    (closeRow 100).close ≤ period_high exampleRows :=
  period_high_low_bound_closes exampleRows (by decide)
    (by
      intro r hr
      fin_cases hr <;> constructor <;> norm_num [closeRow])
    (closeRow 100) (by simp [exampleRows])

/-! ## Symbol extraction and report request processing
(`StockReportAISystem`, `Project4/app.py` lines 329-415)

`yfinance` is modelled by two oracles: `market`, mapping a symbol to the
rows of its fetched history (empty for an unknown symbol), and
`long_name`, the optional `longName` field of the ticker info.  The
completion call that writes the narrative analysis is the oracle `ai`. -/

/-- The hardcoded company-name table of `extract_symbols_from_request`.
The Python dict literal lists the key 'meta' twice; the dictionary keeps
a single entry, so the modelled table has one. -/
def common_symbols : List (String × String) :=
  [("apple", "AAPL"), ("aapl", "AAPL"),
   ("microsoft", "MSFT"), ("msft", "MSFT"),
   ("google", "GOOGL"), ("googl", "GOOGL"),
   ("amazon", "AMZN"), ("amzn", "AMZN"),
   ("tesla", "TSLA"), ("tsla", "TSLA"),
   ("nvidia", "NVDA"), ("nvda", "NVDA"),
   ("meta", "META"),
   ("netflix", "NFLX"), ("nflx", "NFLX")]

/-- The explicit-ticker test of the word loop: 3 to 5 characters, all
alphabetic and all uppercase (the words come from `request.upper()`;
`str.isupper()` on an all-alphabetic ASCII word is all-uppercase). -/
def is_ticker_word (w : List Char) : Bool :=
  decide (3 ≤ w.length) && decide (w.length ≤ 5) &&
    w.all Char.isAlpha && w.all Char.isUpper

/-- `StockReportAISystem.extract_symbols_from_request`: collect the
uppercase 3-5 letter words of the uppercased request, then walk the
company-name table appending each symbol whose name occurs in the
lowercased request and is not yet collected. -/
def extract_symbols_from_request (request : String) : List String :=
  let words := pyWhitespaceSplit (pyUpperChars request.data)
  let explicit := (words.filter is_ticker_word).map (fun w => (⟨w⟩ : String))
  common_symbols.foldl
    (fun symbols p =>
      if pyContains (pyLowerChars request.data) p.1.data && !(symbols.contains p.2)
      then symbols ++ [p.2] else symbols)
    explicit

/-- The dictionary returned by a successful `fetch_stock_data` (the
unused raw `info` field is omitted). -/
structure FetchedStock where
  history : List PriceRow
  company_name : String
  symbol : String
deriving Repr

/-- `StockDataFetcher.fetch_stock_data`: ask the market oracle for the
history; an empty frame yields the no-data error message, otherwise the
data with the company name defaulted to the symbol.  The Python function
returns a `(data, error)` pair with exactly one side set; `Except` is
that shape. -/
def fetch_stock_data (market : String → List PriceRow)
    (long_name : String → Option String) (symbol : String) :
    Except String FetchedStock :=
  let hist := market symbol
  if hist.isEmpty then .error ("No data found for symbol " ++ symbol)
  else .ok ⟨hist, (long_name symbol).getD symbol, symbol⟩

/-- The data interpolated into the narrative-analysis prompt of
`process_stock_request_simple`. -/
structure AnalysisRequest where
  symbol : String
  company_name : String
  days : Nat
  request : String

/-- Result dictionary of `process_stock_request_simple`: either
`{"success": False, "response": ...}` or the successful report fields
(the chart figure is a pure function of `data` and is omitted). -/
inductive ProcessOutcome where
  | failure (response : String)
  | success (symbol company_name analysis : String) (data : List PriceRow)
deriving DecidableEq, Repr

/-- `StockReportAISystem.process_stock_request_simple`: extract a
symbol, fetch its data, and only on success invoke the completion oracle
for the narrative analysis.  The second component counts the completion
(analysis) calls issued, so the short-circuit paths can be seen to skip
the analysis step; `generate_technical_analysis` is not called here at
all (only the display path runs it, and only on a successful report). -/
def process_stock_request_simple (market : String → List PriceRow)
    (long_name : String → Option String) (ai : AnalysisRequest → String)
    (request : String) : ProcessOutcome × Nat :=
  match extract_symbols_from_request request with
  | [] =>
    (.failure "Please specify a stock symbol (e.g., AAPL, TSLA, NVDA) in your request.", 0)
  | symbol :: _ =>
    match fetch_stock_data market long_name symbol with
    | .error err =>
      (.failure ("Error fetching data for " ++ symbol ++ ": " ++ err), 0)
    | .ok stock_data =>
      (.success symbol stock_data.company_name
        (ai ⟨symbol, stock_data.company_name, stock_data.history.length, request⟩)
        stock_data.history, 1)

/-- C5: when the fetched price series of the requested symbol is empty
(an unknown ticker), report generation short-circuits — the fetch
returns the no-data error message, the processor returns the
unsuccessful result wrapping it, and no completion (analysis) call is
issued (count 0; the metrics calculator is never reached either, as it
is only invoked on a successful report). -/
theorem empty_fetch_short_circuits (market : String → List PriceRow)
    (long_name : String → Option String) (ai : AnalysisRequest → String)
    (request symbol : String) (rest : List String)
    (hextract : extract_symbols_from_request request = symbol :: rest)
    (hmarket : market symbol = []) :
    process_stock_request_simple market long_name ai request =
      (.failure ("Error fetching data for " ++ symbol ++ ": " ++
        ("No data found for symbol " ++ symbol)), 0) := by
  unfold process_stock_request_simple
  rw [hextract]
  simp [fetch_stock_data, hmarket]

theorem empty_fetch_short_circuits_witness :
    process_stock_request_simple (fun _ => []) (fun _ => none) (fun _ => "") "XYZ" =
      (.failure "Error fetching data for XYZ: No data found for symbol XYZ", 0) := by
  have h := empty_fetch_short_circuits (fun _ => []) (fun _ => none) (fun _ => "")
    "XYZ" "XYZ" [] (by decide) rfl
  rw [h]
  decide

/-! ## Fallback report generator

No stock-report fallback generator appears among the source files under
`src/`; the spec (sections 4.4 and 7) describes it for the stock-report
variants of the repository. -/

/-- Deterministic decimal-free rendering of a rational for the templated
report. -/
def ratText (q : ℚ) : String :=
  toString q.num ++ "/" ++ toString q.den

/-- Modelled from the spec: the Fallback Report Generator of the
stock-report variants is not among the files under `src/`; per the spec
it is a pure string-templating function over the price series and its
derived metrics (latest close, first close, period high/low, percent
change, average volume), with no model call and no randomness. -/
def fallback_report (symbol : String) (rows : List PriceRow) : String :=
  let closes := rows.map PriceRow.close
  let current := (closes.getLast?).getD 0
  let first := (closes.headD 0)
  let pct := (current - first) / first * 100
  "# Stock Report: " ++ symbol ++ "\n\n" ++
  "- Current Price: " ++ ratText current ++ "\n" ++
  "- First Price: " ++ ratText first ++ "\n" ++
  "- Period High: " ++ ratText (period_high rows) ++ "\n" ++
  "- Period Low: " ++ ratText (period_low rows) ++ "\n" ++
  "- Percent Change: " ++ ratText pct ++ "%\n" ++
  "- Average Volume: " ++ ratText (listMean (rows.map PriceRow.volume)) ++ "\n"

/-- C9: the fallback report generator is deterministic and pure — two
invocations on identical symbol and price series produce byte-identical
markdown, with no oracle involved (none appears among its arguments). -/
theorem fallback_report_deterministic (s₁ s₂ : String)
    (r₁ r₂ : List PriceRow) (hs : s₁ = s₂) (hr : r₁ = r₂) :
    fallback_report s₁ r₁ = fallback_report s₂ r₂ := by
  rw [hs, hr]

theorem fallback_report_deterministic_witness :
    fallback_report "AAPL" exampleRows = fallback_report "AAPL" exampleRows :=
  fallback_report_deterministic "AAPL" "AAPL" exampleRows exampleRows rfl rfl

/-! ## Keyword list parsing (`BlogWritingAIAgent.generate_keywords`,
`project2/app.py` lines 444-468)

The text returned by the keyword completion call is split on commas,
each fragment stripped, empty fragments dropped, and the result capped
at 15 entries. -/

theorem dropWhile_head?_not {α : Type} (p : α → Bool) :
    ∀ (l : List α) (c : α), (l.dropWhile p).head? = some c → p c = false := by
  intro l
  induction l with
  | nil =>
    intro c h
    simp [List.dropWhile] at h
  | cons a t ih =>
    intro c h
    by_cases hp : p a = true
    · rw [List.dropWhile_cons, if_pos hp] at h
      exact ih c h
    · rw [List.dropWhile_cons, if_neg hp] at h
      simp only [List.head?_cons, Option.some.injEq] at h
      rw [← h]
      simpa using hp

theorem pyStripChars_getLast?_not_ws (l : List Char) (c : Char)
    (h : (pyStripChars l).getLast? = some c) : c.isWhitespace = false := by
  unfold pyStripChars at h
  rw [List.getLast?_reverse] at h
  exact dropWhile_head?_not Char.isWhitespace _ c h

theorem pyStripChars_head?_not_ws (l : List Char) (c : Char)
    (h : (pyStripChars l).head? = some c) : c.isWhitespace = false := by
  unfold pyStripChars at h
  rw [List.head?_reverse] at h
  obtain ⟨t, ht⟩ :=
    @List.dropWhile_suffix Char ((l.dropWhile Char.isWhitespace).reverse)
      Char.isWhitespace
  have hr : ((l.dropWhile Char.isWhitespace).reverse).getLast? = some c := by
    rw [← ht, List.getLast?_append, h]
    rfl
  rw [List.getLast?_reverse] at hr
  exact dropWhile_head?_not Char.isWhitespace _ c hr

/-- Test that a string carries no leading and no trailing whitespace. -/
def noEdgeWhitespace (s : String) : Bool :=
  s.data.head?.all (fun c => !c.isWhitespace) &&
    s.data.getLast?.all (fun c => !c.isWhitespace)

/-- The parsing tail of `generate_keywords` (the pure part applied to the
`keywords_text` returned by the completion call): split on commas, strip
each fragment, keep the non-empty ones, return the first 15. -/
def generate_keywords (keywords_text : String) : List String :=
  let keywords :=
    (((List.splitOnP (fun c => c == ',') keywords_text.data).map
      pyStripChars).filter (fun kw => !kw.isEmpty)).map (fun kw => (⟨kw⟩ : String))
  keywords.take 15

/-- C10: whatever the keyword completion call returns, `generate_keywords`
yields at most 15 keywords, each one a non-empty string with no leading
or trailing whitespace, and each a stripped comma-separated fragment of
the returned text taken in order of appearance. -/
theorem generate_keywords_bounded_trimmed (text : String) :
    (generate_keywords text).length ≤ 15 ∧
    List.Sublist (generate_keywords text)
      (((List.splitOnP (fun c => c == ',') text.data).map pyStripChars).map
        (fun kw => (⟨kw⟩ : String))) ∧
    ∀ k ∈ generate_keywords text, k ≠ "" ∧ noEdgeWhitespace k = true := by
  refine ⟨?_, ?_, ?_⟩
  · unfold generate_keywords
    rw [List.length_take]
    exact min_le_left _ _
  · unfold generate_keywords
    exact (List.take_sublist _ _).trans ((List.filter_sublist _).map _)
  · intro k hk
    unfold generate_keywords at hk
    have hk' := List.mem_of_mem_take hk
    rcases List.mem_map.mp hk' with ⟨kw, hkwmem, rfl⟩
    have hfil := List.mem_filter.mp hkwmem
    rcases List.mem_map.mp hfil.1 with ⟨frag, hfragmem, rfl⟩
    constructor
    · intro hcon
      have hd : pyStripChars frag = [] := by
        simpa using congrArg String.data hcon
      rw [hd] at hfil
      simpa using hfil.2
    · have h1 : (pyStripChars frag).head?.all (fun c => !c.isWhitespace) = true := by
        cases hh : (pyStripChars frag).head? with
        | none => rfl
        | some c => simp [Option.all, pyStripChars_head?_not_ws frag c hh]
      have h2 : (pyStripChars frag).getLast?.all (fun c => !c.isWhitespace) = true := by
        cases hl : (pyStripChars frag).getLast? with
        | none => rfl
        | some c => simp [Option.all, pyStripChars_getLast?_not_ws frag c hl]
      show ((pyStripChars frag).head?.all (fun c => !c.isWhitespace) &&
        (pyStripChars frag).getLast?.all (fun c => !c.isWhitespace)) = true
      rw [h1, h2]
      rfl

theorem generate_keywords_bounded_trimmed_witness :
    "ai" ≠ "" ∧ noEdgeWhitespace "ai" = true :=
  (generate_keywords_bounded_trimmed " ai, , seo tools ").2.2 "ai" (by decide)
